import Mathlib

/-!
Verification of the Gmail OAuth token-lifecycle logic of
`liquid-mail-backend` (`src/main.py`).

Shallow embedding conventions:
* Times (`datetime.now(timezone.utc)`, `expires_at`) are absolute instants
  modelled as `Int` (seconds since an arbitrary epoch).  All reads of
  `datetime.now` within one handler call are modelled as a single instant
  `now`; `timedelta(seconds=n)` is addition of `n`.
* The Supabase table `gmail_tokens` is modelled as a `List CredentialRecord`
  in insertion order.  The database assigns `created_at` monotonically at
  insertion, so the query
  `.order("created_at", desc=True).limit(1)` returns the last inserted
  matching row; `latestRecord` models it as the last matching list element.
* Provider HTTP responses (`response.json()`) are oracle parameters: a
  `TokenResponse` is the parsed JSON dictionary of the token endpoint, with
  `Option` fields for keys that may be absent; the mail-send endpoint's
  response is an `HttpResponse` with a status code and an opaque JSON body.
* `raise HTTPException(...)` is modelled with `Except` / explicit error
  constructors; the handler's mutation of the table is modelled by
  returning the new table state alongside the result, so a raised error
  leaves the returned table equal to the input table exactly when the code
  raises before the `insert`.
-/

/-- CredentialRecord: one row of the `gmail_tokens` table (`src/main.py`
lines 105-112 and 163-170).  `refresh_token` is an `Option` because the
callback stores `tokens.get("refresh_token")`, which may be `None`.
`created_at` is database-assigned and monotone in insertion order, so it is
represented by the row's position in the list rather than a field. -/
structure CredentialRecord where
  user_email : String
  access_token : String
  refresh_token : Option String
  token_type : String
  scope : String
  expires_at : Int
deriving DecidableEq, Repr

/-- TokenResponse: the parsed JSON body returned by the provider token
endpoint (`response.json()` at lines 90 and 151).  Every key may be absent,
hence `Option` fields.  `expires_in` is the `int(...)` conversion of the
provider-declared lifetime in seconds. -/
structure TokenResponse where
  access_token : Option String
  refresh_token : Option String
  token_type : Option String
  scope : Option String
  expires_in : Option Int
deriving DecidableEq, Repr

/-- OAuthError: the failure modes of the token handlers.
`credentialNotFound` is `HTTPException(404, "No Gmail tokens found")`
(line 132); `providerError d` is `HTTPException(400, detail=d)` with the
provider's JSON surfaced verbatim (lines 94 and 155); `keyError k` models
the Python `KeyError` raised when a required key `k` is missing from the
provider response (direct `tokens[k]` subscript). -/
inductive OAuthError where
  | credentialNotFound
  | providerError (detail : TokenResponse)
  | keyError (key : String)
deriving DecidableEq, Repr

/-- latestRecord: the query at lines 122-129:
`select * from gmail_tokens where user_email = p order by created_at desc
limit 1`, i.e. the most recently inserted record for the principal
(see the `created_at` convention on `CredentialRecord`). -/
def latestRecord (store : List CredentialRecord) (p : String) :
    Option CredentialRecord :=
  (store.filter (fun r => r.user_email == p)).getLast?

/-- RefreshResult: the observable outcome of one `refresh_gmail_token` call:
the returned access token or the raised exception, the table state after
the call, and how many refresh exchanges were issued against the provider
(the `requests.post` at line 150 runs exactly once on the stale path and
never otherwise). -/
structure RefreshResult where
  result : Except OAuthError String
  store : List CredentialRecord
  refreshCalls : Nat
deriving Repr

/-- refresh_gmail_token (`src/main.py` lines 120-172).  Reads the latest
record for `user_email`; raises 404 when there is none; returns the stored
`access_token` when `expires_at > now`; otherwise performs one refresh
exchange (whose parsed response is the oracle `providerResp`), raises 400
with the response when it lacks `access_token`, and otherwise inserts a new
row whose `refresh_token`, `token_type` and `scope` are copied from the
prior record and whose `expires_at` is `now + expires_in`, returning the
new access token. -/
def refresh_gmail_token (store : List CredentialRecord) (user_email : String)
    (now : Int) (providerResp : TokenResponse) : RefreshResult :=
  match latestRecord store user_email with
  | none => ⟨.error .credentialNotFound, store, 0⟩
  | some record =>
    if record.expires_at > now then
      ⟨.ok record.access_token, store, 0⟩
    else
      match providerResp.access_token with
      | none => ⟨.error (.providerError providerResp), store, 1⟩
      | some new_access =>
        match providerResp.expires_in with
        | none => ⟨.error (.keyError "expires_in"), store, 1⟩
        | some ei =>
          let expires_at := now + ei
          let newRecord : CredentialRecord :=
            { user_email := user_email
              access_token := new_access
              refresh_token := record.refresh_token
              token_type := record.token_type
              scope := record.scope
              expires_at := expires_at }
          ⟨.ok new_access, store ++ [newRecord], 1⟩

/-- CallbackResult: the observable outcome of one `gmail_callback` call:
the returned body's `email` field or the raised exception, and the table
state after the call. -/
structure CallbackResult where
  result : Except OAuthError String
  store : List CredentialRecord
deriving Repr

/-- gmail_callback (`src/main.py` lines 76-114).  Exchanges the
authorization `code` (the parsed provider response is the oracle `tokens`);
raises 400 with the response when it lacks `access_token`; otherwise
computes `expires_at = now + int(tokens["expires_in"])`, fixes the
principal to the constant `"prod.tkmusic@gmail.com"` (line 103: the route
takes no principal input), and inserts a row taking `refresh_token` via
`.get` (may be `None`) and `token_type`/`scope` by direct subscript
(`keyError` when absent, in evaluation order `expires_in`, `token_type`,
`scope`). -/
def gmail_callback (_code : String) (tokens : TokenResponse) (now : Int)
    (store : List CredentialRecord) : CallbackResult :=
  match tokens.access_token with
  | none => ⟨.error (.providerError tokens), store⟩
  | some access_token =>
    let refresh_token := tokens.refresh_token
    match tokens.expires_in with
    | none => ⟨.error (.keyError "expires_in"), store⟩
    | some ei =>
      let expires_at := now + ei
      let user_email := "prod.tkmusic@gmail.com"
      match tokens.token_type with
      | none => ⟨.error (.keyError "token_type"), store⟩
      | some tt =>
        match tokens.scope with
        | none => ⟨.error (.keyError "scope"), store⟩
        | some sc =>
          let newRecord : CredentialRecord :=
            { user_email := user_email
              access_token := access_token
              refresh_token := refresh_token
              token_type := tt
              scope := sc
              expires_at := expires_at }
          ⟨.ok user_email, store ++ [newRecord]⟩

/-- pyTruthy: Python truthiness of an optional string environment variable
(`not GOOGLE_CLIENT_ID` at line 57): `None` and the empty string are falsy. -/
def pyTruthy : Option String → Bool
  | none => false
  | some s => !s.isEmpty

/-- OAuthConfig: the two environment variables `gmail_login` reads
(`GOOGLE_CLIENT_ID`, `GOOGLE_REDIRECT_URI`); `os.getenv` yields `None`
when unset. -/
structure OAuthConfig where
  client_id : Option String
  redirect_uri : Option String
deriving DecidableEq, Repr

/-- utf8Bytes: the UTF-8 encoding of one character, as the byte values
`str.encode()` would produce in Python (needed by percent-encoding and by
the base64 payload encoding). -/
def utf8Bytes (c : Char) : List Nat :=
  let n := c.toNat
  if n < 0x80 then [n]
  else if n < 0x800 then
    [0xC0 ||| (n >>> 6), 0x80 ||| (n &&& 0x3F)]
  else if n < 0x10000 then
    [0xE0 ||| (n >>> 12), 0x80 ||| ((n >>> 6) &&& 0x3F), 0x80 ||| (n &&& 0x3F)]
  else
    [0xF0 ||| (n >>> 18), 0x80 ||| ((n >>> 12) &&& 0x3F),
     0x80 ||| ((n >>> 6) &&& 0x3F), 0x80 ||| (n &&& 0x3F)]

/-- hexDigitUpper: one uppercase hexadecimal digit, for percent-escapes. -/
def hexDigitUpper (n : Nat) : Char :=
  if n < 10 then Char.ofNat (48 + n) else Char.ofNat (55 + n)

/-- percentEncodeByte: the three-character `%XX` escape of one byte, as
`urllib.parse.quote` produces. -/
def percentEncodeByte (b : Nat) : List Char :=
  ['%', hexDigitUpper (b / 16), hexDigitUpper (b % 16)]

/-- quoteSafe: the characters `urllib.parse.quote_plus` leaves unescaped:
ASCII letters, digits, and `_ . - ~`. -/
def quoteSafe (c : Char) : Bool :=
  c.isAlphanum || c == '_' || c == '.' || c == '-' || c == '~'

/-- quotePlusChar: `urllib.parse.quote_plus` on one character: space
becomes `+`, safe characters pass through, everything else is
percent-escaped byte by byte of its UTF-8 encoding. -/
def quotePlusChar (c : Char) : List Char :=
  if c == ' ' then ['+']
  else if quoteSafe c then [c]
  else (utf8Bytes c).flatMap percentEncodeByte

/-- quote_plus: `urllib.parse.quote_plus` on a string. -/
def quote_plus (s : String) : String :=
  ⟨s.data.flatMap quotePlusChar⟩

/-- joinAmp: the `&`-join that `urllib.parse.urlencode` performs on the
encoded `key=value` pairs. -/
def joinAmp : List String → String
  | [] => ""
  | [x] => x
  | x :: y :: xs => x ++ "&" ++ joinAmp (y :: xs)

/-- urlencode: `urllib.parse.urlencode(params)` with its default
`quote_via=quote_plus`: each key and value is quoted, joined as
`key=value` pairs with `&`, preserving the dict's insertion order. -/
def urlencode (ps : List (String × String)) : String :=
  joinAmp (ps.map fun p => quote_plus p.1 ++ "=" ++ quote_plus p.2)

/-- oauthParams: the `params` dict built at `src/main.py` lines 60-67, in
its insertion order. -/
def oauthParams (cid ruri : String) : List (String × String) :=
  [("client_id", cid),
   ("redirect_uri", ruri),
   ("response_type", "code"),
   ("access_type", "offline"),
   ("prompt", "consent"),
   ("scope", "https://www.googleapis.com/auth/gmail.send")]

/-- gmail_login (`src/main.py` lines 54-70).  Raises 500 when either
environment variable is Python-falsy; otherwise returns the consent URL
built deterministically from the fixed params dict. -/
def gmail_login (cfg : OAuthConfig) : Except String String :=
  if !(pyTruthy cfg.client_id) || !(pyTruthy cfg.redirect_uri) then
    .error "Missing Google OAuth environment variables"
  else
    .ok ("https://accounts.google.com/o/oauth2/v2/auth?" ++
      urlencode (oauthParams (cfg.client_id.getD "") (cfg.redirect_uri.getD "")))

/-- HttpResponse: the mail-send endpoint's reply as `send_gmail_message`
observes it: a status code and the `response.json()` body, kept opaque as a
string. -/
structure HttpResponse where
  status_code : Nat
  body : String
deriving DecidableEq, Repr

/-- SendError: `send_gmail_message` failure modes: `tokenError e` is the
`HTTPException` propagated unchanged out of `refresh_gmail_token`;
`dispatchError d` is `HTTPException(500, detail=response.json())` at
line 194 with the provider's error payload surfaced verbatim. -/
inductive SendError where
  | tokenError (e : OAuthError)
  | dispatchError (detail : String)
deriving DecidableEq, Repr

/-- SendResult: the observable outcome of one `send_gmail_message` call:
the returned `response.json()` or the raised exception, plus the table
state after the embedded `refresh_gmail_token` call. -/
structure SendResult where
  result : Except SendError String
  store : List CredentialRecord
deriving Repr

/-- b64UrlChar: the URL-safe base64 alphabet character for one 6-bit
value, as `base64.urlsafe_b64encode` uses (`+` and `/` replaced by `-`
and `_`). -/
def b64UrlChar (n : Nat) : Char :=
  "ABCDEFGHIJKLMNOPQRSTUVWXYZabcdefghijklmnopqrstuvwxyz0123456789-_".data.getD n 'A'

/-- base64urlEncode: `base64.urlsafe_b64encode` over a byte list, with
standard `=` padding. -/
def base64urlEncode : List Nat → List Char
  | [] => []
  | [b1] =>
    [b64UrlChar (b1 / 4), b64UrlChar ((b1 % 4) * 16), '=', '=']
  | [b1, b2] =>
    [b64UrlChar (b1 / 4), b64UrlChar ((b1 % 4) * 16 + b2 / 16),
     b64UrlChar ((b2 % 16) * 4), '=']
  | b1 :: b2 :: b3 :: rest =>
    b64UrlChar (b1 / 4) :: b64UrlChar ((b1 % 4) * 16 + b2 / 16) ::
    b64UrlChar ((b2 % 16) * 4 + b3 / 64) :: b64UrlChar (b3 % 64) ::
    base64urlEncode rest

/-- send_payload: the `{"raw": encoded}` value posted to the mail API
(`src/main.py` lines 183-188): the RFC-822 text built from recipient,
subject and body, UTF-8 encoded then URL-safe base64 encoded. -/
def send_payload (to_addr subject message_body : String) : String :=
  let raw_email :=
    "To: " ++ to_addr ++ "\r\nSubject: " ++ subject ++ "\r\n\r\n" ++ message_body
  ⟨base64urlEncode (raw_email.data.flatMap utf8Bytes)⟩

/-- send_gmail_message (`src/main.py` lines 178-196).  Resolves an access
token through `refresh_gmail_token` (exceptions propagate unchanged), then
posts the encoded message once (the provider's reply is the oracle
`sendResp`); any status other than 200 raises 500 carrying the reply body
verbatim, with no retry; a 200 returns the reply body. -/
def send_gmail_message (store : List CredentialRecord) (user_email : String)
    (to_addr subject message_body : String) (now : Int)
    (refreshResp : TokenResponse) (sendResp : HttpResponse) : SendResult :=
  let r := refresh_gmail_token store user_email now refreshResp
  match r.result with
  | .error e => ⟨.error (.tokenError e), r.store⟩
  | .ok _access_token =>
    let _payload := send_payload to_addr subject message_body
    if sendResp.status_code ≠ 200 then
      ⟨.error (.dispatchError sendResp.body), r.store⟩
    else
      ⟨.ok sendResp.body, r.store⟩

/-- C1: for a principal whose latest stored record is Valid (now strictly
before `expires_at`), `refresh_gmail_token` returns that record's
`access_token` immediately: no refresh exchange is issued (counter 0) and
the table is unchanged. -/
theorem refresh_valid_returns_latest (store : List CredentialRecord)
    (u : String) (now : Int) (pr : TokenResponse) (r : CredentialRecord)
    (hlatest : latestRecord store u = some r)
    (hvalid : now < r.expires_at) :
    refresh_gmail_token store u now pr = ⟨.ok r.access_token, store, 0⟩ := by
  simp [refresh_gmail_token, hlatest, hvalid]

/-- C1 witness: a concrete Valid principal. -/
theorem refresh_valid_returns_latest_witness :
    refresh_gmail_token [⟨"a@b.com", "T1", some "R1", "Bearer", "s", 100⟩]
      "a@b.com" 50 ⟨none, none, none, none, none⟩ =
    ⟨.ok "T1", [⟨"a@b.com", "T1", some "R1", "Bearer", "s", 100⟩], 0⟩ :=
  refresh_valid_returns_latest _ _ _ _
    ⟨"a@b.com", "T1", some "R1", "Bearer", "s", 100⟩ (by decide) (by decide)

/-- C4: for a principal with zero stored records, `refresh_gmail_token`
raises `credentialNotFound` (HTTP 404): it returns no token at all, issues
no refresh exchange against the provider (counter 0), and leaves the table
unchanged. -/
theorem refresh_no_record_not_found (store : List CredentialRecord)
    (u : String) (now : Int) (pr : TokenResponse)
    (hempty : ∀ r ∈ store, r.user_email ≠ u) :
    refresh_gmail_token store u now pr = ⟨.error .credentialNotFound, store, 0⟩ := by
  have hfilter : store.filter (fun r => r.user_email == u) = [] := by
    rw [List.filter_eq_nil_iff]
    intro r hr
    simpa using hempty r hr
  have hlatest : latestRecord store u = none := by
    rw [latestRecord, hfilter]; rfl
  simp [refresh_gmail_token, hlatest]

/-- C4 witness: a store holding only another principal's record. -/
theorem refresh_no_record_not_found_witness :
    refresh_gmail_token [⟨"x@y.com", "T1", some "R1", "Bearer", "s", 100⟩]
      "a@b.com" 50 ⟨none, none, none, none, none⟩ =
    ⟨.error .credentialNotFound,
     [⟨"x@y.com", "T1", some "R1", "Bearer", "s", 100⟩], 0⟩ :=
  refresh_no_record_not_found _ _ _ _ (by decide)

/-- C2: when the refresh exchange succeeds but the provider response omits
`refresh_token`, the single newly inserted record's `refresh_token` equals
the prior latest record's; in particular, when the prior record holds a
refresh token (one was once obtained) the new record's is the same and not
`none`. -/
theorem refresh_token_carry_forward (store : List CredentialRecord)
    (u : String) (now : Int) (pr : TokenResponse) (r : CredentialRecord)
    (na : String) (ei : Int)
    (hlatest : latestRecord store u = some r)
    (hstale : r.expires_at ≤ now)
    (hat : pr.access_token = some na)
    (hei : pr.expires_in = some ei)
    ( _homit : pr.refresh_token = none) :
    ∃ newRec, (refresh_gmail_token store u now pr).store = store ++ [newRec] ∧
      newRec.refresh_token = r.refresh_token ∧
      ∀ rt, r.refresh_token = some rt → newRec.refresh_token = some rt := by
  have hn : ¬ (r.expires_at > now) := not_lt.mpr hstale
  refine ⟨⟨u, na, r.refresh_token, r.token_type, r.scope, now + ei⟩, ?_, rfl, ?_⟩
  · simp [refresh_gmail_token, hlatest, hn, hat, hei]
  · intro rt hrt
    simpa using hrt

/-- C2 witness: a Stale record with refresh token "R1"; the provider
response omits `refresh_token`. -/
theorem refresh_token_carry_forward_witness :
    ∃ newRec,
      (refresh_gmail_token [⟨"a@b.com", "T1", some "R1", "Bearer", "s", 100⟩]
        "a@b.com" 100 ⟨some "T2", none, none, none, some 3600⟩).store =
        [⟨"a@b.com", "T1", some "R1", "Bearer", "s", 100⟩] ++ [newRec] ∧
      newRec.refresh_token = some "R1" ∧
      ∀ rt, (some "R1" : Option String) = some rt → newRec.refresh_token = some rt :=
  refresh_token_carry_forward _ _ _ _
    ⟨"a@b.com", "T1", some "R1", "Bearer", "s", 100⟩ "T2" 3600
    (by decide) (by decide) (by decide) (by decide) (by decide)

/-- latestRecord after appending a record for the same principal returns
that record (the freshly inserted row has the greatest `created_at`). -/
theorem latestRecord_append_self (store : List CredentialRecord)
    (p : String) (r : CredentialRecord) (h : r.user_email = p) :
    latestRecord (store ++ [r]) p = some r := by
  rw [latestRecord, List.filter_append]
  have hr : [r].filter (fun x => x.user_email == p) = [r] := by
    simp [h]
  rw [hr, List.getLast?_concat]

/-- C3: for a principal whose latest record is Stale (`now` at or past
`expires_at`), a successful refresh exchange appends exactly one new
record (the table becomes the old table plus one row), `latestRecord`
afterwards returns that new record (whose `access_token` is the freshly
granted one) rather than the old record, and the call returns the new
`access_token`. -/
theorem refresh_stale_persists_and_returns_new (store : List CredentialRecord)
    (u : String) (now : Int) (pr : TokenResponse) (r : CredentialRecord)
    (na : String) (ei : Int)
    (hlatest : latestRecord store u = some r)
    (hstale : r.expires_at ≤ now)
    (hat : pr.access_token = some na)
    (hei : pr.expires_in = some ei) :
    refresh_gmail_token store u now pr =
      ⟨.ok na,
       store ++ [⟨u, na, r.refresh_token, r.token_type, r.scope, now + ei⟩], 1⟩ ∧
    (refresh_gmail_token store u now pr).store.length = store.length + 1 ∧
    latestRecord (refresh_gmail_token store u now pr).store u =
      some ⟨u, na, r.refresh_token, r.token_type, r.scope, now + ei⟩ := by
  have hn : ¬ (r.expires_at > now) := not_lt.mpr hstale
  have hmain : refresh_gmail_token store u now pr =
      ⟨.ok na,
       store ++ [⟨u, na, r.refresh_token, r.token_type, r.scope, now + ei⟩], 1⟩ := by
    simp [refresh_gmail_token, hlatest, hn, hat, hei]
  refine ⟨hmain, ?_, ?_⟩
  · rw [hmain]; simp
  · rw [hmain]
    exact latestRecord_append_self store u _ rfl

/-- C3 witness: the spec's end-to-end scenario: one Stale record, provider
grants `T2` for 3600 seconds with no refresh token. -/
theorem refresh_stale_persists_and_returns_new_witness :
    refresh_gmail_token [⟨"a@b.com", "T1", some "R1", "Bearer", "s", 100⟩]
      "a@b.com" 101 ⟨some "T2", none, none, none, some 3600⟩ =
      ⟨.ok "T2",
       [⟨"a@b.com", "T1", some "R1", "Bearer", "s", 100⟩] ++
         [⟨"a@b.com", "T2", some "R1", "Bearer", "s", (101 : Int) + 3600⟩], 1⟩ ∧
    (refresh_gmail_token [⟨"a@b.com", "T1", some "R1", "Bearer", "s", 100⟩]
      "a@b.com" 101 ⟨some "T2", none, none, none, some 3600⟩).store.length = 2 ∧
    latestRecord
      (refresh_gmail_token [⟨"a@b.com", "T1", some "R1", "Bearer", "s", 100⟩]
        "a@b.com" 101 ⟨some "T2", none, none, none, some 3600⟩).store "a@b.com" =
      some ⟨"a@b.com", "T2", some "R1", "Bearer", "s", (101 : Int) + 3600⟩ :=
  refresh_stale_persists_and_returns_new _ _ _ _
    ⟨"a@b.com", "T1", some "R1", "Bearer", "s", 100⟩ "T2" 3600
    (by decide) (by decide) (by decide) (by decide)

/-- C9: on a successful refresh exchange, the inserted record's
`refresh_token`, `token_type` and `scope` are copied unconditionally from
the prior record: even when the provider's response carries its own values
for all three fields, they are discarded and the old ones stored
(`src/main.py` lines 166-168 read `record[...]`, never `new_data[...]`). -/
theorem refresh_discards_provider_metadata (store : List CredentialRecord)
    (u : String) (now : Int) (pr : TokenResponse) (r : CredentialRecord)
    (na prt ptt psc : String) (ei : Int)
    (hlatest : latestRecord store u = some r)
    (hstale : r.expires_at ≤ now)
    (hat : pr.access_token = some na)
    (hei : pr.expires_in = some ei)
    ( _hprt : pr.refresh_token = some prt)
    ( _hptt : pr.token_type = some ptt)
    ( _hpsc : pr.scope = some psc) :
    ∃ newRec, (refresh_gmail_token store u now pr).store = store ++ [newRec] ∧
      newRec.refresh_token = r.refresh_token ∧
      newRec.token_type = r.token_type ∧
      newRec.scope = r.scope := by
  have hn : ¬ (r.expires_at > now) := not_lt.mpr hstale
  exact ⟨⟨u, na, r.refresh_token, r.token_type, r.scope, now + ei⟩,
    by simp [refresh_gmail_token, hlatest, hn, hat, hei], rfl, rfl, rfl⟩

/-- C9 witness: provider response carrying fresh refresh token, token type
and scope, all of which the code discards. -/
theorem refresh_discards_provider_metadata_witness :
    ∃ newRec,
      (refresh_gmail_token [⟨"a@b.com", "T1", some "R1", "Bearer", "s", 100⟩]
        "a@b.com" 200
        ⟨some "T2", some "R2", some "mac", some "other", some 3600⟩).store =
        [⟨"a@b.com", "T1", some "R1", "Bearer", "s", 100⟩] ++ [newRec] ∧
      newRec.refresh_token = some "R1" ∧
      newRec.token_type = "Bearer" ∧
      newRec.scope = "s" :=
  refresh_discards_provider_metadata _ _ _ _
    ⟨"a@b.com", "T1", some "R1", "Bearer", "s", 100⟩ "T2" "R2" "mac" "other" 3600
    (by decide) (by decide) (by decide) (by decide) (by decide) (by decide) (by decide)

/-- C5: in both exchanges the persisted record's `expires_at` is the
absolute instant `now + expires_in` (capture time plus the
provider-declared lifetime), not a raw integer offset: the first conjunct
covers the authorization-code callback, the second the refresh exchange. -/
theorem expires_at_is_capture_plus_lifetime (code u : String)
    (tokens pr : TokenResponse) (now : Int) (store : List CredentialRecord)
    (at1 na tt sc : String) (ei1 ei2 : Int) (r : CredentialRecord) :
    (tokens.access_token = some at1 → tokens.expires_in = some ei1 →
      tokens.token_type = some tt → tokens.scope = some sc →
      ∃ newRec, (gmail_callback code tokens now store).store = store ++ [newRec] ∧
        newRec.expires_at = now + ei1) ∧
    (latestRecord store u = some r → r.expires_at ≤ now →
      pr.access_token = some na → pr.expires_in = some ei2 →
      ∃ newRec, (refresh_gmail_token store u now pr).store = store ++ [newRec] ∧
        newRec.expires_at = now + ei2) := by
  constructor
  · intro hat hei htt hsc
    exact ⟨⟨"prod.tkmusic@gmail.com", at1, tokens.refresh_token, tt, sc, now + ei1⟩,
      by simp [gmail_callback, hat, hei, htt, hsc], rfl⟩
  · intro hlatest hstale hat hei
    have hn : ¬ (r.expires_at > now) := not_lt.mpr hstale
    exact ⟨⟨u, na, r.refresh_token, r.token_type, r.scope, now + ei2⟩,
      by simp [refresh_gmail_token, hlatest, hn, hat, hei], rfl⟩

/-- C5 witness: concrete callback and refresh exchanges, each granting a
3600-second lifetime captured at instant 1000 and 2000 respectively. -/
theorem expires_at_is_capture_plus_lifetime_witness :
    (∃ newRec,
      (gmail_callback "c" ⟨some "T1", some "R1", some "Bearer", some "s", some 3600⟩
        1000 []).store = [] ++ [newRec] ∧
      newRec.expires_at = (1000 : Int) + 3600) ∧
    (∃ newRec,
      (refresh_gmail_token [⟨"a@b.com", "T1", some "R1", "Bearer", "s", 100⟩]
        "a@b.com" 2000 ⟨some "T2", none, none, none, some 3600⟩).store =
        [⟨"a@b.com", "T1", some "R1", "Bearer", "s", 100⟩] ++ [newRec] ∧
      newRec.expires_at = (2000 : Int) + 3600) :=
  ⟨(expires_at_is_capture_plus_lifetime "c" "a@b.com"
      ⟨some "T1", some "R1", some "Bearer", some "s", some 3600⟩
      ⟨some "T2", none, none, none, some 3600⟩ 1000 [] "T1" "T2" "Bearer" "s"
      3600 3600 ⟨"a@b.com", "T1", some "R1", "Bearer", "s", 100⟩).1
      (by decide) (by decide) (by decide) (by decide),
   (expires_at_is_capture_plus_lifetime "c" "a@b.com"
      ⟨some "T1", some "R1", some "Bearer", some "s", some 3600⟩
      ⟨some "T2", none, none, none, some 3600⟩ 2000
      [⟨"a@b.com", "T1", some "R1", "Bearer", "s", 100⟩] "T1" "T2" "Bearer" "s"
      3600 3600 ⟨"a@b.com", "T1", some "R1", "Bearer", "s", 100⟩).2
      (by decide) (by decide) (by decide) (by decide)⟩

/-- C7: each exchange raises the provider-payload 400 error exactly when
the provider's response lacks `access_token`, and on that failure the
table is unchanged (nothing persisted).  The first two conjuncts cover the
authorization-code exchange, the last the refresh exchange (reached when
the latest record is Stale). -/
theorem provider_error_iff_missing_access_token (code u : String)
    (tokens pr : TokenResponse) (now : Int) (store : List CredentialRecord)
    (r : CredentialRecord) :
    ((gmail_callback code tokens now store).result =
        .error (.providerError tokens) ↔ tokens.access_token = none) ∧
    (tokens.access_token = none →
      (gmail_callback code tokens now store).store = store) ∧
    (latestRecord store u = some r → r.expires_at ≤ now →
      (((refresh_gmail_token store u now pr).result =
          .error (.providerError pr) ↔ pr.access_token = none) ∧
       (pr.access_token = none →
         (refresh_gmail_token store u now pr).store = store))) := by
  refine ⟨?_, ?_, ?_⟩
  · rcases hat : tokens.access_token with _ | a
    · simp [gmail_callback, hat]
    · rcases hei : tokens.expires_in with _ | e
      · simp [gmail_callback, hat, hei]
      · rcases htt : tokens.token_type with _ | t
        · simp [gmail_callback, hat, hei, htt]
        · rcases hsc : tokens.scope with _ | s
          · simp [gmail_callback, hat, hei, htt, hsc]
          · simp [gmail_callback, hat, hei, htt, hsc]
  · intro hat
    simp [gmail_callback, hat]
  · intro hlatest hstale
    have hn : ¬ (r.expires_at > now) := not_lt.mpr hstale
    constructor
    · rcases hat : pr.access_token with _ | a
      · simp [refresh_gmail_token, hlatest, hn, hat]
      · rcases hei : pr.expires_in with _ | e
        · simp [refresh_gmail_token, hlatest, hn, hat, hei]
        · simp [refresh_gmail_token, hlatest, hn, hat, hei]
    · intro hat
      simp [refresh_gmail_token, hlatest, hn, hat]

/-- C7 witness: provider responses lacking `access_token` on both paths,
on a store holding one Stale record. -/
theorem provider_error_iff_missing_access_token_witness :
    ((gmail_callback "c" ⟨none, none, none, none, some 3600⟩ 1000
        [⟨"a@b.com", "T1", some "R1", "Bearer", "s", 100⟩]).result =
        .error (.providerError ⟨none, none, none, none, some 3600⟩) ↔
      (⟨none, none, none, none, some 3600⟩ : TokenResponse).access_token = none) ∧
    ((⟨none, none, none, none, some 3600⟩ : TokenResponse).access_token = none →
      (gmail_callback "c" ⟨none, none, none, none, some 3600⟩ 1000
        [⟨"a@b.com", "T1", some "R1", "Bearer", "s", 100⟩]).store =
        [⟨"a@b.com", "T1", some "R1", "Bearer", "s", 100⟩]) ∧
    (((refresh_gmail_token [⟨"a@b.com", "T1", some "R1", "Bearer", "s", 100⟩]
        "a@b.com" 1000 ⟨none, none, none, none, some 3600⟩).result =
        .error (.providerError ⟨none, none, none, none, some 3600⟩) ↔
      (⟨none, none, none, none, some 3600⟩ : TokenResponse).access_token = none) ∧
     ((⟨none, none, none, none, some 3600⟩ : TokenResponse).access_token = none →
       (refresh_gmail_token [⟨"a@b.com", "T1", some "R1", "Bearer", "s", 100⟩]
         "a@b.com" 1000 ⟨none, none, none, none, some 3600⟩).store =
         [⟨"a@b.com", "T1", some "R1", "Bearer", "s", 100⟩])) :=
  ⟨(provider_error_iff_missing_access_token "c" "a@b.com"
      ⟨none, none, none, none, some 3600⟩ ⟨none, none, none, none, some 3600⟩
      1000 [⟨"a@b.com", "T1", some "R1", "Bearer", "s", 100⟩]
      ⟨"a@b.com", "T1", some "R1", "Bearer", "s", 100⟩).1,
   (provider_error_iff_missing_access_token "c" "a@b.com"
      ⟨none, none, none, none, some 3600⟩ ⟨none, none, none, none, some 3600⟩
      1000 [⟨"a@b.com", "T1", some "R1", "Bearer", "s", 100⟩]
      ⟨"a@b.com", "T1", some "R1", "Bearer", "s", 100⟩).2.1,
   (provider_error_iff_missing_access_token "c" "a@b.com"
      ⟨none, none, none, none, some 3600⟩ ⟨none, none, none, none, some 3600⟩
      1000 [⟨"a@b.com", "T1", some "R1", "Bearer", "s", 100⟩]
      ⟨"a@b.com", "T1", some "R1", "Bearer", "s", 100⟩).2.2
      (by decide) (by decide)⟩

/-- C10: `gmail_callback` takes no principal input (its only inputs are
the authorization code and the provider response); every record it adds to
the table has `user_email` equal to the constant
`"prod.tkmusic@gmail.com"`, and on success it reports that same constant,
whatever the code or the consenting identity's response. -/
theorem gmail_callback_fixed_principal (code : String) (tokens : TokenResponse)
    (now : Int) (store : List CredentialRecord) :
    (∀ rec ∈ (gmail_callback code tokens now store).store,
      rec ∈ store ∨ rec.user_email = "prod.tkmusic@gmail.com") ∧
    (∀ e, (gmail_callback code tokens now store).result = .ok e →
      e = "prod.tkmusic@gmail.com") := by
  rcases hat : tokens.access_token with _ | a
  · constructor
    · intro rec hrec
      exact Or.inl (by simpa [gmail_callback, hat] using hrec)
    · intro e he
      simp [gmail_callback, hat] at he
  · rcases hei : tokens.expires_in with _ | ei
    · constructor
      · intro rec hrec
        exact Or.inl (by simpa [gmail_callback, hat, hei] using hrec)
      · intro e he
        simp [gmail_callback, hat, hei] at he
    · rcases htt : tokens.token_type with _ | tt
      · constructor
        · intro rec hrec
          exact Or.inl (by simpa [gmail_callback, hat, hei, htt] using hrec)
        · intro e he
          simp [gmail_callback, hat, hei, htt] at he
      · rcases hsc : tokens.scope with _ | sc
        · constructor
          · intro rec hrec
            exact Or.inl (by simpa [gmail_callback, hat, hei, htt, hsc] using hrec)
          · intro e he
            simp [gmail_callback, hat, hei, htt, hsc] at he
        · constructor
          · intro rec hrec
            rw [gmail_callback] at hrec
            simp only [hat, hei, htt, hsc, List.mem_append, List.mem_singleton] at hrec
            rcases hrec with h | h
            · exact Or.inl h
            · exact Or.inr (by rw [h])
          · intro e he
            simp [gmail_callback, hat, hei, htt, hsc] at he
            exact he.symm

/-- C10 witness: a successful concrete callback on an empty table; the one
inserted record carries the fixed principal. -/
theorem gmail_callback_fixed_principal_witness :
    (⟨"prod.tkmusic@gmail.com", "T1", some "R1", "Bearer", "s", (1000 : Int) + 3600⟩ :
        CredentialRecord) ∈ ([] : List CredentialRecord) ∨
    (⟨"prod.tkmusic@gmail.com", "T1", some "R1", "Bearer", "s", (1000 : Int) + 3600⟩ :
        CredentialRecord).user_email = "prod.tkmusic@gmail.com" :=
  (gmail_callback_fixed_principal "c"
    ⟨some "T1", some "R1", some "Bearer", some "s", some 3600⟩ 1000 []).1
    ⟨"prod.tkmusic@gmail.com", "T1", some "R1", "Bearer", "s", (1000 : Int) + 3600⟩
    (by decide)

/-- C8: when the token resolution inside `send_gmail_message` succeeds,
the single mail-send call decides the outcome: any status other than 200
raises the 500 dispatch error carrying the provider's response body
verbatim (no retry: the oracle response is consulted once), and a 200
returns that body. -/
theorem send_dispatch_error_iff_non_success (store : List CredentialRecord)
    (u to_addr subject message_body : String) (now : Int)
    (rr : TokenResponse) (sendResp : HttpResponse) (tok : String)
    (hok : (refresh_gmail_token store u now rr).result = .ok tok) :
    (sendResp.status_code ≠ 200 →
      (send_gmail_message store u to_addr subject message_body now rr
        sendResp).result = .error (.dispatchError sendResp.body)) ∧
    (sendResp.status_code = 200 →
      (send_gmail_message store u to_addr subject message_body now rr
        sendResp).result = .ok sendResp.body) := by
  constructor
  · intro hne
    simp [send_gmail_message, hok, hne]
  · intro heq
    simp [send_gmail_message, hok, heq]

/-- C8 witness: a Valid credential and a 500-status dispatch reply whose
body is surfaced verbatim; the same call with a 200 reply returns the
body. -/
theorem send_dispatch_error_iff_non_success_witness :
    ((500 : Nat) ≠ 200 →
      (send_gmail_message [⟨"a@b.com", "T1", some "R1", "Bearer", "s", 100⟩]
        "a@b.com" "to@x.com" "hi" "body" 50 ⟨none, none, none, none, none⟩
        ⟨500, "errbody"⟩).result = .error (.dispatchError "errbody")) ∧
    ((500 : Nat) = 200 →
      (send_gmail_message [⟨"a@b.com", "T1", some "R1", "Bearer", "s", 100⟩]
        "a@b.com" "to@x.com" "hi" "body" 50 ⟨none, none, none, none, none⟩
        ⟨500, "errbody"⟩).result = .ok "errbody") :=
  send_dispatch_error_iff_non_success
    [⟨"a@b.com", "T1", some "R1", "Bearer", "s", 100⟩]
    "a@b.com" "to@x.com" "hi" "body" 50 ⟨none, none, none, none, none⟩
    ⟨500, "errbody"⟩ "T1" (by rfl)

/-- strContains: `sub` occurs in `s` as a contiguous substring. -/
def strContains (s sub : String) : Prop :=
  ∃ a b : List Char, s.data = a ++ sub.data ++ b

/-- data of a string append is the append of the data. -/
theorem strData_append (s t : String) : (s ++ t).data = s.data ++ t.data := rfl

/-- a substring of the right part occurs in the whole append. -/
theorem strContains_appendLeft (s t sub : String) (h : strContains t sub) :
    strContains (s ++ t) sub := by
  obtain ⟨a, b, hab⟩ := h
  exact ⟨s.data ++ a, b, by rw [strData_append, hab]; simp⟩

/-- a substring of the left part occurs in the whole append. -/
theorem strContains_appendRight (s t sub : String) (h : strContains s sub) :
    strContains (s ++ t) sub := by
  obtain ⟨a, b, hab⟩ := h
  exact ⟨a, b ++ t.data, by rw [strData_append, hab]; simp⟩

/-- a substring of any member occurs in the `&`-join of a list. -/
theorem strContains_joinAmp (parts : List String) (x sub : String)
    (hmem : x ∈ parts) (h : strContains x sub) :
    strContains (joinAmp parts) sub := by
  induction parts with
  | nil => cases hmem
  | cons y ys ih =>
    cases hmem with
    | head =>
      cases ys with
      | nil => simpa [joinAmp] using h
      | cons z zs =>
        show strContains ((x ++ "&") ++ joinAmp (z :: zs)) sub
        exact strContains_appendRight _ _ _ (strContains_appendRight _ _ _ h)
    | tail _ hm =>
      cases ys with
      | nil => cases hm
      | cons z zs =>
        show strContains ((y ++ "&") ++ joinAmp (z :: zs)) sub
        exact strContains_appendLeft _ _ _ (ih hm)

/-- C6: given fixed configuration with both environment variables set and
non-empty, `gmail_login` (a pure function of the configuration, hence
returning the same URL on every call) succeeds with a URL that contains
`access_type=offline` and `prompt=consent`. -/
theorem gmail_login_url_has_offline_consent (cfg : OAuthConfig)
    (h1 : pyTruthy cfg.client_id = true)
    (h2 : pyTruthy cfg.redirect_uri = true) :
    ∃ url, gmail_login cfg = .ok url ∧
      strContains url "access_type=offline" ∧
      strContains url "prompt=consent" := by
  refine ⟨"https://accounts.google.com/o/oauth2/v2/auth?" ++
    urlencode (oauthParams (cfg.client_id.getD "") (cfg.redirect_uri.getD "")),
    ?_, ?_, ?_⟩
  · rw [gmail_login, h1, h2]
    rfl
  · apply strContains_appendLeft
    rw [urlencode]
    apply strContains_joinAmp _
      (quote_plus "access_type" ++ "=" ++ quote_plus "offline") _ (by simp [oauthParams])
    exact ⟨[], [], by decide⟩
  · apply strContains_appendLeft
    rw [urlencode]
    apply strContains_joinAmp _
      (quote_plus "prompt" ++ "=" ++ quote_plus "consent") _ (by simp [oauthParams])
    exact ⟨[], [], by decide⟩

/-- C6 witness: a concrete configuration. -/
theorem gmail_login_url_has_offline_consent_witness :
    ∃ url, gmail_login ⟨some "cid123", some "https://cb.example/x"⟩ = .ok url ∧
      strContains url "access_type=offline" ∧
      strContains url "prompt=consent" :=
  gmail_login_url_has_offline_consent ⟨some "cid123", some "https://cb.example/x"⟩
    (by decide) (by decide)
